/-
Verification of the DeAI API MCP server (src/server.js) against its
natural-language specification.

The development shallowly embeds the JavaScript source: JSON/JS values are
an inductive `JsValue` (numbers are modelled as rationals; IEEE-754 rounding
and NaN propagation through non-numeric operands are outside the claims and
are noted where a definition approximates them), exceptions are `Except`,
and the single upstream HTTP call is an oracle `String → FetchOutcome`
mapping the endpoint to the observed fetch result.  Each definition is
translated from the corresponding place in src/server.js, cited by line.
-/
import Mathlib

namespace DeAIServer

/-- A JavaScript/JSON value, as handled by the server.  `undefined` is kept
distinct from `null` because the source distinguishes them
(e.g. `result.buyFee !== null && result.buyFee !== undefined`). -/
inductive JsValue where
  | null
  | undefined
  | bool (b : Bool)
  | num (q : ℚ)
  | str (s : String)
  | arr (elems : List JsValue)
  | obj (fields : List (String × JsValue))

/-- JavaScript truthiness, for the value shapes the server handles.
(NaN, absent from the model, is the only other falsy number.) -/
def truthy : JsValue → Bool
  | .null => false
  | .undefined => false
  | .bool b => b
  | .num q => q ≠ 0
  | .str s => s ≠ ""
  | .arr _ => true
  | .obj _ => true

/-- First binding of a key in an object literal. -/
def lookupField : List (String × JsValue) → String → JsValue
  | [], _ => .undefined
  | (k, v) :: rest, key => if k = key then v else lookupField rest key

/-- Property read on a value known to be non-null/non-undefined (JS returns
`undefined` for properties of primitives and missing object keys).  Reads
whose base may be null/undefined go through `jsAccess` below, which models
the thrown TypeError. -/
def JsValue.lookup : JsValue → String → JsValue
  | .obj fs, k => lookupField fs k
  | _, _ => .undefined

def jsTypeName : JsValue → String
  | .null => "null"
  | .undefined => "undefined"
  | .bool _ => "boolean"
  | .num _ => "number"
  | .str _ => "string"
  | .arr _ => "array"
  | .obj _ => "object"

/-- Left-pad a digit string with zeros to the given width. -/
def padZeros (width : Nat) (s : String) : String :=
  String.mk (List.replicate (width - s.length) '0') ++ s

/-- Insert `,` thousands separators into a digit string (en-US grouping),
working on the reversed digit list. -/
def groupRev : List Char → List Char
  | a :: b :: c :: d :: rest => a :: b :: c :: ',' :: groupRev (d :: rest)
  | l => l

def groupThousands (s : String) : String :=
  String.mk (groupRev s.data.reverse).reverse

/-- The integer `Number.prototype.toFixed(d)` rounds the magnitude to:
the nearest multiple of 10^(-d), ties toward the larger magnitude. -/
def toFixedRounded (d : Nat) (q : ℚ) : ℤ :=
  Int.floor (|q| * (10 : ℚ) ^ d + 1 / 2)

/-- `Number.prototype.toFixed(d)`: sign taken from the input, magnitude
rounded half-up (so (-0.001).toFixed(2) = "-0.00", as in JS). -/
def toFixedQ (d : Nat) (q : ℚ) : String :=
  let n := (toFixedRounded d q).toNat
  let sign := if q < 0 then "-" else ""
  if d = 0 then sign ++ Nat.repr n
  else sign ++ Nat.repr (n / 10 ^ d) ++ "." ++ padZeros d (Nat.repr (n % 10 ^ d))

/-- The rational value denoted by the string `toFixedQ d q` (JS coerces the
`toFixed` output back to a number when comparing it with `> 0`). -/
def toFixedNumVal (d : Nat) (q : ℚ) : ℚ :=
  (if q < 0 then -1 else 1) * (toFixedRounded d q : ℚ) / (10 : ℚ) ^ d

/-- `Number.prototype.toString` for the values the formatters interpolate:
exact for integers; non-integers are printed to at most 10 fractional
digits (JS prints the shortest round-trip decimal of the double; the
claims never depend on this rendering). -/
def numToString (q : ℚ) : String :=
  if q.den = 1 then (if q < 0 then "-" else "") ++ Nat.repr q.num.natAbs
  else
    let sign := if q < 0 then "-" else ""
    let n := (toFixedRounded 10 q).toNat
    let fracDigits :=
      ((padZeros 10 (Nat.repr (n % 10 ^ 10))).data.reverse.dropWhile (· = '0')).reverse
    if fracDigits = [] then sign ++ Nat.repr (n / 10 ^ 10)
    else sign ++ Nat.repr (n / 10 ^ 10) ++ "." ++ String.mk fracDigits

/-- JS `String(v)` / template-literal coercion.  Arrays are stringified one
level deep (no formatter output in the claims interpolates nested
arrays). -/
def jsToStringAtom : JsValue → String
  | .null => "null"
  | .undefined => "undefined"
  | .bool true => "true"
  | .bool false => "false"
  | .num q => numToString q
  | .str s => s
  | .arr _ => ""
  | .obj _ => "[object Object]"

def jsToString : JsValue → String
  | .arr xs => String.intercalate "," (xs.map jsToStringAtom)
  | v => jsToStringAtom v

/-- `Number.prototype.toLocaleString()` with the en-US defaults the source
relies on: grouped integer part, at most 3 fractional digits, half-away
rounding, trailing zeros trimmed. -/
def localeStringQ (q : ℚ) : String :=
  let sign := if q < 0 then "-" else ""
  let n := (toFixedRounded 3 q).toNat
  let fracDigits := ((padZeros 3 (Nat.repr (n % 1000))).data.reverse.dropWhile (· = '0')).reverse
  sign ++ groupThousands (Nat.repr (n / 1000))
    ++ (if fracDigits = [] then "" else "." ++ String.mk fracDigits)

/-- `v.toLocaleString()` on a value known non-null/non-undefined: locale
formatting for numbers, `toString` behaviour for the other shapes. -/
def toLocaleJs : JsValue → String
  | .num q => localeStringQ q
  | v => jsToString v

/-- An ASCII apostrophe, used in the TypeError messages the runtime raises
for property reads on undefined/null. -/
def aposChar : Char := Char.ofNat 39

def quoteS (s : String) : String :=
  String.singleton aposChar ++ s ++ String.singleton aposChar

/-- The four MCP error codes the server uses (server.js imports `ErrorCode`
from the MCP SDK). -/
inductive ErrCode where
  | InvalidRequest
  | InvalidParams
  | MethodNotFound
  | InternalError
deriving DecidableEq, Repr

/-- An exception in flight inside the `try` block of the CallTool handler:
a Zod validation error (carrying its issue messages), an McpError (code and
message), or any other runtime error such as a TypeError (carrying
`error.message`). -/
inductive JsErr where
  | zod (messages : List String)
  | mcp (code : ErrCode) (message : String)
  | typeErr (message : String)
deriving DecidableEq, Repr

/-- Property read whose base may be null or undefined: models that
`base.field` throws a TypeError there (caught by the handler's `catch`). -/
def jsAccess (v : JsValue) (field : String) : Except JsErr JsValue :=
  match v with
  | .null =>
    .error (.typeErr ("Cannot read properties of null (reading " ++ quoteS field ++ ")"))
  | .undefined =>
    .error (.typeErr ("Cannot read properties of undefined (reading " ++ quoteS field ++ ")"))
  | w => .ok (w.lookup field)

/-- `args.field` where `args` is `request.params.arguments` (undefined when
the call carries no argument object, modelled as `none`). -/
def readArg (args : Option JsValue) (field : String) : Except JsErr JsValue :=
  match args with
  | none =>
    .error (.typeErr ("Cannot read properties of undefined (reading " ++ quoteS field ++ ")"))
  | some v => jsAccess v field

def isHexDigit (c : Char) : Bool :=
  (('0' ≤ c && c ≤ '9') || ('a' ≤ c && c ≤ 'f') || ('A' ≤ c && c ≤ 'F'))

/-- The regex `^0x[a-fA-F0-9]{40}$` of `EthereumAddressSchema`
(server.js line 15). -/
def isEthAddressString (s : String) : Bool :=
  s.data.length = 42 && s.data.take 2 = ['0', 'x'] && (s.data.drop 2).all isHexDigit

/-- `EthereumAddressSchema.parse` (Zod `z.string().regex(..., "Invalid
Ethereum address format")`): returns the string or throws a ZodError whose
issue messages are listed. -/
def zodParseAddress : JsValue → Except (List String) String
  | .str s =>
    if isEthAddressString s then .ok s else .error ["Invalid Ethereum address format"]
  | .undefined => .error ["Required"]
  | v => .error ["Expected string, received " ++ jsTypeName v]

/-- What one `fetch` of an endpoint observes, abstracting the network:
a 2xx response with parsed JSON body, a non-2xx response (its status, raw
body text, and the result of `JSON.parse` on it when it parses), or a
rejected fetch promise (the error name and message). -/
inductive FetchOutcome where
  | ok (body : JsValue)
  | httpErr (status : Nat) (bodyText : String) (parsedBody : Option JsValue)
  | netErr (errorName : String) (errorMessage : String)

/-- The upstream environment for one call: what fetching each endpoint
returns. -/
def Upstream := String → FetchOutcome

/-- `DeAIApiClient.makeRequest` (server.js lines 23–64), for a given fetch
outcome: 2xx returns the parsed body; non-2xx throws an McpError built from
the body's message/error field; a rejected fetch throws the timeout McpError
when the error is named AbortError, else the generic request-error McpError.
(When the non-2xx body parses to JSON `null`, `errorData.message` itself
throws, and the catch-all turns that TypeError into the generic message.) -/
def makeRequest (upstream : Upstream) (endpoint : String) : Except (ErrCode × String) JsValue :=
  match upstream endpoint with
  | .ok body => .ok body
  | .httpErr status bodyText parsedBody =>
    let errorData := match parsedBody with
      | some v => v
      | none => .obj [("message", .str bodyText)]
    match errorData with
    | .null =>
      .error (.InternalError,
        "Request error: Cannot read properties of null (reading " ++ quoteS "message" ++ ")")
    | d =>
      let m := d.lookup "message"
      let msg := if truthy m then m else d.lookup "error"
      let msg := if truthy msg then msg else .str "Unknown error"
      .error (.InternalError,
        "API Error (" ++ Nat.repr status ++ "): " ++ jsToString msg)
  | .netErr errorName errorMessage =>
    if errorName = "AbortError" then
      .error (.InternalError, "Request timeout: API took too long to respond")
    else
      .error (.InternalError, "Request error: " ++ errorMessage)

def tokenInfoEndpoint (contractAddress : String) : String :=
  "/api/token/token-info/" ++ contractAddress

def topHoldersEndpoint (contractAddress : String) : String :=
  "/api/token/top-holders/" ++ contractAddress

def balanceChangesEndpoint (contractAddress : String) : String :=
  "/api/token/token-holder-balance-changes/" ++ contractAddress

def portfolioEndpoint (walletAddress : String) : String :=
  "/api/token/portfolio/" ++ walletAddress

def avgEntryEndpoint (contractAddress : String) : String :=
  "/api/token/avg-entry/" ++ contractAddress

def twoTokenOverlapEndpoint (token1 token2 : String) : String :=
  "/api/token/two-token-overlap?token1=" ++ token1 ++ "&token2=" ++ token2

/-- JS `a || b`. -/
def jsOr (a b : JsValue) : JsValue := if truthy a then a else b

/-- `${v || "fallback"}` inside a template literal. -/
def jsOrStr (v : JsValue) (fallback : String) : String :=
  if truthy v then jsToString v else fallback

/-- `v > 0` for the numeric fields the formatters compare (string-to-number
coercion of non-numeric operands is not modelled; the claims exercise
numbers and absent fields only). -/
def jsGtZero : JsValue → Bool
  | .num q => 0 < q
  | _ => false

def isArrayJs : JsValue → Bool
  | .arr _ => true
  | _ => false

def arrElems : JsValue → List JsValue
  | .arr xs => xs
  | _ => []

/-- `v?.field`: undefined when the base is null/undefined, else the
property. -/
def optChainField (v : JsValue) (field : String) : JsValue :=
  match v with
  | .null | .undefined => .undefined
  | w => w.lookup field

/-- `v?.toLocaleString() || fallback` (the fallback also fires when the
rendered string is empty, since `""` is falsy). -/
def optLocaleOr (v : JsValue) (fallback : String) : String :=
  match v with
  | .null | .undefined => fallback
  | w => let s := toLocaleJs w
         if s = "" then fallback else s

/-- `v?.toFixed(d) || fallback`: undefined/null short-circuit to the
fallback, numbers are rendered, any other value throws (`toFixed` is not a
function on it). -/
def optToFixedOr (d : Nat) (v : JsValue) (fallback : String) : Except JsErr String :=
  match v with
  | .null | .undefined => .ok fallback
  | .num q => .ok (toFixedQ d q)
  | _ => .error (.typeErr "toFixed is not a function")

/-- `.map((x, index) => ...)` over a list, sequencing the thrown errors in
element order and collecting the produced lines. -/
def mapIdxExcept (f : Nat → JsValue → Except JsErr String) :
    Nat → List JsValue → Except JsErr (List String)
  | _, [] => .ok []
  | i, x :: xs => do
    let s ← f i x
    let rest ← mapIdxExcept f (i + 1) xs
    pure (s :: rest)

/-- One holder line of the `get_top_holders` formatter
(server.js lines 249–254). -/
def topHolderLine (index : Nat) (holder : JsValue) : Except JsErr String := do
  let addr ← jsAccess holder "address"
  pure (Nat.repr (index + 1) ++ ". " ++ jsOrStr addr "Unknown"
    ++ (if truthy (holder.lookup "label") then " (" ++ jsToString (holder.lookup "label") ++ ")"
        else "")
    ++ "\n   Balance: " ++ jsOrStr (holder.lookup "balance") "N/A"
    ++ " (" ++ jsOrStr (holder.lookup "percentage") "N/A" ++ "%)")

/-- The `get_top_holders` text construction after its shape check
(server.js lines 249–269). -/
def formatTopHoldersBody (result : JsValue) : Except JsErr String := do
  let lines ← mapIdxExcept topHolderLine 0 ((arrElems (result.lookup "holders")).take 10)
  let holdersList := String.intercalate "\n" lines
  pure ("Top Holders for " ++ jsOrStr (result.lookup "tokenName") "Unknown"
    ++ " (" ++ jsOrStr (result.lookup "tokenSymbol") "Unknown" ++ "):\n\n**Token Statistics:**"
    ++ "\n• Total Supply: " ++ jsOrStr (result.lookup "totalSupply") "N/A"
    ++ "\n• Total Holders: "
    ++ (if truthy (result.lookup "holdersCount") then toLocaleJs (result.lookup "holdersCount")
        else "N/A")
    ++ "\n\n**Top 10 Holders:**\n" ++ holdersList)

/-- The `get_top_holders` case after the request (server.js lines 245–270):
shape check `!result || !Array.isArray(result.holders)` throwing the
invalid-format McpError, then the text. -/
def formatTopHolders (result : JsValue) : Except JsErr String :=
  if !(truthy result) || !(isArrayJs (result.lookup "holders")) then
    .error (.mcp .InternalError "Invalid response format from API")
  else formatTopHoldersBody result

/-- `(change.change && change.balanceStart) ?
((change.change / change.balanceStart) * 100).toFixed(2) : "0.00"`
(server.js line 286).  Truthy non-numeric operands would divide to NaN and
render "NaN"; the claims exercise numbers and absent fields. -/
def changePercentStr (change balanceStart : JsValue) : String :=
  if truthy change && truthy balanceStart then
    match change, balanceStart with
    | .num c, .num s => toFixedQ 2 (c / s * 100)
    | _, _ => "NaN"
  else "0.00"

/-- One entry of the `get_token_holder_balance_changes` formatter
(server.js lines 284–290). -/
def balanceChangeLine (index : Nat) (change : JsValue) : Except JsErr String := do
  let changeVal ← jsAccess change "change"
  let changeAmount :=
    if truthy changeVal && jsGtZero changeVal then "+" ++ toLocaleJs changeVal
    else toLocaleJs (jsOr changeVal (.num 0))
  let changePercent := changePercentStr changeVal (change.lookup "balanceStart")
  pure (Nat.repr (index + 1) ++ ". " ++ jsOrStr (change.lookup "address") "Unknown"
    ++ (if truthy (change.lookup "label") then " (" ++ jsToString (change.lookup "label") ++ ")"
        else "")
    ++ "\n   Change: " ++ changeAmount ++ " (" ++ changePercent ++ "%)"
    ++ "\n   Start: "
    ++ (if truthy (change.lookup "balanceStart") then toLocaleJs (change.lookup "balanceStart")
        else "N/A")
    ++ " → End: "
    ++ (if truthy (change.lookup "balanceEnd") then toLocaleJs (change.lookup "balanceEnd")
        else "N/A"))

/-- The `get_token_holder_balance_changes` text construction after its
shape check (server.js lines 282–303). -/
def formatBalanceChangesBody (result : JsValue) : Except JsErr String := do
  let lines ←
    mapIdxExcept balanceChangeLine 0 ((arrElems (result.lookup "tokenHolderBalanceChanges")).take 10)
  let changesList := String.intercalate "\n" lines
  pure ("Token Holders Balance Changes (Last 7 Days):\n**Token:** "
    ++ jsOrStr (result.lookup "tokenAddress") "Unknown"
    ++ "\n\n**Top 10 Balance Changes:**\n" ++ changesList)

/-- The `get_token_holder_balance_changes` case after the request
(server.js lines 278–304): shape check
`!result || !Array.isArray(result.tokenHolderBalanceChanges)`, then the
text. -/
def formatBalanceChanges (result : JsValue) : Except JsErr String :=
  if !(truthy result) || !(isArrayJs (result.lookup "tokenHolderBalanceChanges")) then
    .error (.mcp .InternalError "Invalid response format from API")
  else formatBalanceChangesBody result

/-- `(b.valueUSD || 0) - (a.valueUSD || 0)` reads this sort key from each
token balance (server.js line 322).  Non-numeric truthy `valueUSD` fields
would make the comparator NaN-valued; they are keyed 0 here, and the claims
exercise numeric and absent fields only. -/
def valueUSDKey (token : JsValue) : ℚ :=
  match token.lookup "valueUSD" with
  | .num q => q
  | _ => 0

/-- A stable sort by descending `valueUSD`, as JS `Array.prototype.sort`
performs with the comparator `(a, b) => (b.valueUSD || 0) - (a.valueUSD ||
0)` (JS sort is stable and orders `a` before `b` exactly when the
comparator is negative, i.e. descending by key). -/
def sortedDescByValue (l : List JsValue) : List JsValue :=
  List.insertionSort (fun a b => valueUSDKey b ≤ valueUSDKey a) l

/-- `result.tokenBalances.slice(0, 10).sort((a, b) => (b.valueUSD || 0) -
(a.valueUSD || 0))` (server.js lines 320–322): the first 10 entries, then a
stable descending sort of those 10 by USD value. -/
def portfolioDisplayed (tokenBalances : List JsValue) : List JsValue :=
  sortedDescByValue (tokenBalances.take 10)

/-- One token line of the `get_portfolio` formatter
(server.js lines 323–331). -/
def portfolioTokenLine (index : Nat) (token : JsValue) : Except JsErr String := do
  let valueUSD ← jsAccess token "valueUSD"
  let value := if truthy valueUSD then "$" ++ toLocaleJs valueUSD else "N/A"
  let tokenName := jsOrStr (optChainField (token.lookup "token") "name") "Unknown"
  let tokenSymbol := jsOrStr (optChainField (token.lookup "token") "symbol") "Unknown"
  let amount :=
    if truthy (token.lookup "amount") then toLocaleJs (token.lookup "amount") else "N/A"
  pure (Nat.repr (index + 1) ++ ". " ++ tokenName ++ " (" ++ tokenSymbol ++ ")"
    ++ "\n   Amount: " ++ amount ++ "\n   Value: " ++ value)

/-- The `get_portfolio` text construction after its shape check
(server.js lines 316–347). -/
def formatPortfolioBody (walletAddress : String) (result : JsValue) : Except JsErr String := do
  let totalValue := optLocaleOr (result.lookup "totalPortfolioValue") "N/A"
  let totalChange := optLocaleOr (result.lookup "totalPortfolioValueChange") "N/A"
  let totalChangePercent ←
    optToFixedOr 2 (result.lookup "totalPortfolioValueChangePercentage") "N/A"
  let lines ←
    mapIdxExcept portfolioTokenLine 0 (portfolioDisplayed (arrElems (result.lookup "tokenBalances")))
  let tokenList := String.intercalate "\n" lines
  pure ("Portfolio Summary for " ++ walletAddress ++ ":\n\n**Overall Portfolio:**"
    ++ "\n• Total Value: $" ++ totalValue
    ++ "\n• 24h Change: $" ++ totalChange ++ " (" ++ totalChangePercent ++ "%)"
    ++ "\n\n**Top 10 Token Holdings:**\n" ++ tokenList)

/-- The `get_portfolio` case after the request (server.js lines 312–348):
shape check `!result || !Array.isArray(result.tokenBalances)`, then the
text. -/
def formatPortfolio (walletAddress : String) (result : JsValue) : Except JsErr String :=
  if !(truthy result) || !(isArrayJs (result.lookup "tokenBalances")) then
    .error (.mcp .InternalError "Invalid response format from API")
  else formatPortfolioBody walletAddress result

/-- `(result.currentPrice - holder.avgEntryPrice) / holder.avgEntryPrice *
100` when both operands are numbers; truthy non-numbers divide to NaN
(`none`). -/
def pnlComputed (currentPrice avgEntry : JsValue) : Option ℚ :=
  match currentPrice, avgEntry with
  | .num c, .num a => some ((c - a) / a * 100)
  | _, _ => none

/-- The `pnl` string of one avg-entry holder line
(server.js lines 366–368). -/
def avgEntryPnl (avgEntry currentPrice : JsValue) : String :=
  if truthy avgEntry && truthy currentPrice then
    match pnlComputed currentPrice avgEntry with
    | some q => toFixedQ 2 q
    | none => "NaN"
  else "N/A"

/-- `pnl > 0` (server.js line 369): JS coerces the `toFixed` output string
back to a number, so the comparison sees the rounded value ("-0.00" and
"0.00" both coerce to zero; "NaN" compares false). -/
def pnlGtZero (avgEntry currentPrice : JsValue) : Bool :=
  if truthy avgEntry && truthy currentPrice then
    match pnlComputed currentPrice avgEntry with
    | some q => 0 < toFixedNumVal 2 q
    | none => false
  else false

/-- `pnl !== "N/A" ? (pnl > 0 ? `+...%` : `...%`) : "N/A"`
(server.js line 369). -/
def avgEntryPnlLabel (avgEntry currentPrice : JsValue) : String :=
  let pnl := avgEntryPnl avgEntry currentPrice
  if pnl ≠ "N/A" then
    (if pnlGtZero avgEntry currentPrice then "+" ++ pnl ++ "%" else pnl ++ "%")
  else "N/A"

/-- One holder line of the `get_average_entry_analysis` formatter
(server.js lines 364–375). -/
def avgEntryHolderLine (result : JsValue) (index : Nat) (holder : JsValue) :
    Except JsErr String := do
  let avgEntry ← jsAccess holder "avgEntryPrice"
  let entryPrice ←
    (if truthy avgEntry then
      match avgEntry with
      | .num q => pure ("$" ++ toFixedQ 6 q)
      | _ => throw (.typeErr "toFixed is not a function")
    else pure "N/A")
  let pnlLabel := avgEntryPnlLabel avgEntry (result.lookup "currentPrice")
  pure (Nat.repr (index + 1) ++ ". " ++ jsOrStr (holder.lookup "address") "Unknown"
    ++ (if truthy (holder.lookup "label") then " (" ++ jsToString (holder.lookup "label") ++ ")"
        else "")
    ++ "\n   Balance: " ++ jsOrStr (holder.lookup "balance") "N/A"
    ++ "\n   Avg Entry: " ++ entryPrice ++ " | P/L: " ++ pnlLabel
    ++ "\n   Buys: " ++ jsToString (jsOr (holder.lookup "totalBuys") (.num 0))
    ++ " | Volume: $" ++ toLocaleJs (jsOr (holder.lookup "totalBuyVolume") (.num 0)))

/-- `result.holders?.slice(0, 10).map(...).join("\n") || "No holder data
available"` (server.js lines 362–376).  An empty join is falsy, so an empty
holders array also yields the fallback; a truthy non-array `holders` value
throws (no `slice`/`map` on it). -/
def avgEntryHoldersList (result : JsValue) : Except JsErr String := do
  match result.lookup "holders" with
  | .null | .undefined => pure "No holder data available"
  | .arr xs => do
    let lines ← mapIdxExcept (avgEntryHolderLine result) 0 (xs.take 10)
    let s := String.intercalate "\n" lines
    pure (if s = "" then "No holder data available" else s)
  | .str _ => throw (.typeErr "map is not a function")
  | _ => throw (.typeErr "slice is not a function")

/-- The `get_average_entry_analysis` text construction after its shape
check (server.js lines 359–406). -/
def formatAvgEntryBody (result : JsValue) : Except JsErr String := do
  let summary := result.lookup "summary"
  let profitLoss := jsOr (summary.lookup "profitLossMetrics") (.obj [])
  let holdersList ← avgEntryHoldersList result
  let currentPriceStr ← optToFixedOr 6 (result.lookup "currentPrice") "N/A"
  let avgPriceStr ← optToFixedOr 6 (summary.lookup "avgEntryPrice") "N/A"
  let medianStr ← optToFixedOr 6 (summary.lookup "medianEntryPrice") "N/A"
  let lowestStr ← optToFixedOr 6 (summary.lookup "lowestEntryPrice") "N/A"
  let highestStr ← optToFixedOr 6 (summary.lookup "highestEntryPrice") "N/A"
  let q1Str ← optToFixedOr 6 (summary.lookup "q1EntryPrice") "N/A"
  let q3Str ← optToFixedOr 6 (summary.lookup "q3EntryPrice") "N/A"
  let profitPct ← optToFixedOr 2 (profitLoss.lookup "profitPercentage") "0"
  let lossPct ← optToFixedOr 2 (profitLoss.lookup "lossPercentage") "0"
  let brkPct ← optToFixedOr 2 (profitLoss.lookup "breakEvenPercentage") "0"
  pure ("Average Entry Analysis for " ++ jsOrStr (result.lookup "tokenName") "Unknown"
    ++ " (" ++ jsOrStr (result.lookup "tokenSymbol") "Unknown" ++ "):"
    ++ "\n\n**Current Price:** $" ++ currentPriceStr
    ++ "\n\n**Summary Statistics:**"
    ++ "\n• Total Holders: " ++ optLocaleOr (summary.lookup "totalHolders") "N/A"
    ++ "\n• Holders with Data: " ++ optLocaleOr (summary.lookup "totalHoldersWithData") "N/A"
    ++ "\n• Average Entry Price: $" ++ avgPriceStr
    ++ "\n• Median Entry Price: $" ++ medianStr
    ++ "\n• Price Range: $" ++ lowestStr ++ " - $" ++ highestStr
    ++ "\n• Q1/Q3 Prices: $" ++ q1Str ++ " / $" ++ q3Str
    ++ "\n\n**Portfolio Metrics:**"
    ++ "\n• Total Holdings Value: $" ++ optLocaleOr (summary.lookup "totalHoldingsValue") "N/A"
    ++ "\n• Average Holding Size: " ++ optLocaleOr (summary.lookup "averageHoldingSize") "N/A"
    ++ " tokens"
    ++ "\n\n**Profit/Loss Distribution:**"
    ++ "\n• Holders in Profit: " ++ jsToString (jsOr (profitLoss.lookup "holdersInProfit") (.num 0))
    ++ " (" ++ profitPct ++ "%)"
    ++ "\n• Holders in Loss: " ++ jsToString (jsOr (profitLoss.lookup "holdersInLoss") (.num 0))
    ++ " (" ++ lossPct ++ "%)"
    ++ "\n• Holders at Breakeven: "
    ++ jsToString (jsOr (profitLoss.lookup "holdersAtBreakeven") (.num 0))
    ++ " (" ++ brkPct ++ "%)"
    ++ "\n\n**Top 10 Holders:**\n" ++ holdersList)

/-- The `get_average_entry_analysis` case after the request
(server.js lines 355–407): the only shape check is
`!result || !result.summary` (truthiness, not container shape), then the
text. -/
def formatAvgEntry (result : JsValue) : Except JsErr String :=
  if !(truthy result) || !(truthy (result.lookup "summary")) then
    .error (.mcp .InternalError "Invalid response format from API")
  else formatAvgEntryBody result

/-- One overlapping-holder line of the `get_two_token_overlap` formatter
(server.js lines 421–425).  Note `result.token1.symbol` is interpolated
with no fallback: an absent symbol renders as "undefined". -/
def overlapHolderLine (result : JsValue) (index : Nat) (holder : JsValue) :
    Except JsErr String := do
  let addr ← jsAccess holder "address"
  let p1 ← optToFixedOr 2 (holder.lookup "token1Percentage") "N/A"
  let p2 ← optToFixedOr 2 (holder.lookup "token2Percentage") "N/A"
  pure (Nat.repr (index + 1) ++ ". " ++ jsOrStr addr "Unknown"
    ++ "\n   " ++ jsToString ((result.lookup "token1").lookup "symbol")
    ++ " Balance: " ++ jsOrStr (holder.lookup "token1Balance") "N/A"
    ++ " (" ++ p1 ++ "%) - Rank #" ++ jsOrStr (holder.lookup "rank1") "N/A"
    ++ "\n   " ++ jsToString ((result.lookup "token2").lookup "symbol")
    ++ " Balance: " ++ jsOrStr (holder.lookup "token2Balance") "N/A"
    ++ " (" ++ p2 ++ "%) - Rank #" ++ jsOrStr (holder.lookup "rank2") "N/A")

/-- The `get_two_token_overlap` text construction after its shape check
(server.js lines 419–449). -/
def formatTwoTokenOverlapBody (result : JsValue) : Except JsErr String := do
  let overlapList ←
    (match result.lookup "overlappingHolders" with
    | .null | .undefined => pure "No overlapping holders found"
    | .arr xs => do
      let lines ← mapIdxExcept (overlapHolderLine result) 0 (xs.take 10)
      let s := String.intercalate "\n" lines
      pure (if s = "" then "No overlapping holders found" else s)
    | .str _ => throw (.typeErr "map is not a function")
    | _ => throw (.typeErr "slice is not a function"))
  let token1 := result.lookup "token1"
  let token2 := result.lookup "token2"
  let overlapPct ← optToFixedOr 2 (result.lookup "overlapPercentage") "N/A"
  pure ("Two-Token Overlap Analysis:"
    ++ "\n\n**Token 1: " ++ jsOrStr (token1.lookup "name") "Unknown"
    ++ " (" ++ jsOrStr (token1.lookup "symbol") "Unknown" ++ ")**"
    ++ "\n• Address: " ++ jsToString (token1.lookup "address")
    ++ "\n• Total Holders: " ++ optLocaleOr (token1.lookup "totalHolders") "N/A"
    ++ "\n\n**Token 2: " ++ jsOrStr (token2.lookup "name") "Unknown"
    ++ " (" ++ jsOrStr (token2.lookup "symbol") "Unknown" ++ ")**"
    ++ "\n• Address: " ++ jsToString (token2.lookup "address")
    ++ "\n• Total Holders: " ++ optLocaleOr (token2.lookup "totalHolders") "N/A"
    ++ "\n\n**Overlap Statistics:**"
    ++ "\n• Total Overlapping Holders: " ++ optLocaleOr (result.lookup "totalOverlapping") "N/A"
    ++ "\n• Overlap Percentage: " ++ overlapPct ++ "%"
    ++ "\n\n**Top 10 Overlapping Holders:**\n" ++ overlapList)

/-- The `get_two_token_overlap` case after the request
(server.js lines 415–450): the only shape check is
`!result || !result.token1 || !result.token2` (truthiness), then the
text. -/
def formatTwoTokenOverlap (result : JsValue) : Except JsErr String :=
  if !(truthy result) || !(truthy (result.lookup "token1"))
      || !(truthy (result.lookup "token2")) then
    .error (.mcp .InternalError "Invalid response format from API")
  else formatTwoTokenOverlapBody result

/-- The `get_token_info` case after the request (server.js lines 222–238):
no shape check at all; every field access is on `result`, which only throws
when `result` itself is null (JSON `null` body). -/
def formatTokenInfo (contractAddress : String) (result : JsValue) : Except JsErr String :=
  match result with
  | .null =>
    .error (.typeErr ("Cannot read properties of null (reading " ++ quoteS "name" ++ ")"))
  | .undefined =>
    .error (.typeErr ("Cannot read properties of undefined (reading " ++ quoteS "name" ++ ")"))
  | r =>
    let fee (v : JsValue) : String :=
      match v with
      | .null => "Not available"
      | .undefined => "Not available"
      | w => jsToString w ++ "%"
    .ok ("Token Information for " ++ contractAddress ++ ":\n\n**"
      ++ jsOrStr (r.lookup "name") "Unknown" ++ " (" ++ jsOrStr (r.lookup "symbol") "Unknown"
      ++ ")**"
      ++ "\n• Address: " ++ jsOrStr (r.lookup "address") contractAddress
      ++ "\n• Decimals: " ++ jsOrStr (r.lookup "decimals") "Unknown"
      ++ "\n• Logo: " ++ jsOrStr (r.lookup "logoUrl") "Not available"
      ++ "\n• Buy Fee: " ++ fee (r.lookup "buyFee")
      ++ "\n• Sell Fee: " ++ fee (r.lookup "sellFee"))

/-- The shared shape of five of the six switch cases: read the one address
argument, `EthereumAddressSchema.parse` it (ZodError aborts before any
request), make the one request, format the body.  The second component
lists the endpoints actually fetched, in order. -/
def singleAddressCase (args : Option JsValue) (field : String)
    (endpointOf : String → String) (upstream : Upstream)
    (format : String → JsValue → Except JsErr String) :
    Except JsErr String × List String :=
  match readArg args field with
  | .error e => (.error e, [])
  | .ok v =>
    match zodParseAddress v with
    | .error msgs => (.error (.zod msgs), [])
    | .ok address =>
      let endpoint := endpointOf address
      match makeRequest upstream endpoint with
      | .error (c, m) => (.error (.mcp c m), [endpoint])
      | .ok result => (format address result, [endpoint])

/-- The `get_two_token_overlap` case (server.js lines 410–451): `token1` is
parsed first, and its ZodError aborts before `token2` is parsed. -/
def twoTokenOverlapCase (args : Option JsValue) (upstream : Upstream) :
    Except JsErr String × List String :=
  match readArg args "token1" with
  | .error e => (.error e, [])
  | .ok v1 =>
    match zodParseAddress v1 with
    | .error msgs => (.error (.zod msgs), [])
    | .ok token1 =>
      match readArg args "token2" with
      | .error e => (.error e, [])
      | .ok v2 =>
        match zodParseAddress v2 with
        | .error msgs => (.error (.zod msgs), [])
        | .ok token2 =>
          let endpoint := twoTokenOverlapEndpoint token1 token2
          match makeRequest upstream endpoint with
          | .error (c, m) => (.error (.mcp c m), [endpoint])
          | .ok result => (formatTwoTokenOverlap result, [endpoint])

/-- The `switch (name)` inside the try block (server.js lines 219–455),
including the default case throwing MethodNotFound. -/
def dispatchCall (name : String) (args : Option JsValue) (upstream : Upstream) :
    Except JsErr String × List String :=
  match name with
  | "get_token_info" =>
    singleAddressCase args "contractAddress" tokenInfoEndpoint upstream formatTokenInfo
  | "get_top_holders" =>
    singleAddressCase args "contractAddress" topHoldersEndpoint upstream
      (fun _ r => formatTopHolders r)
  | "get_token_holder_balance_changes" =>
    singleAddressCase args "contractAddress" balanceChangesEndpoint upstream
      (fun _ r => formatBalanceChanges r)
  | "get_portfolio" =>
    singleAddressCase args "walletAddress" portfolioEndpoint upstream formatPortfolio
  | "get_average_entry_analysis" =>
    singleAddressCase args "contractAddress" avgEntryEndpoint upstream
      (fun _ r => formatAvgEntry r)
  | "get_two_token_overlap" => twoTokenOverlapCase args upstream
  | other => (.error (.mcp .MethodNotFound ("Tool \"" ++ other ++ "\" not found")), [])

/-- The catch block (server.js lines 456–466): ZodError → InvalidParams
joining the issue messages, McpError rethrown, anything else →
InternalError with an "Unexpected error:" message. -/
def catchToMcp : Except JsErr String → Except (ErrCode × String) String
  | .ok s => .ok s
  | .error (.zod msgs) =>
    .error (.InvalidParams, "Invalid parameters: " ++ String.intercalate ", " msgs)
  | .error (.mcp c m) => .error (c, m)
  | .error (.typeErr m) => .error (.InternalError, "Unexpected error: " ++ m)

/-- The CallTool request handler (server.js lines 205–467): the API_KEY
check precedes everything; on success the returned value models the text
content of the reply.  The second component is the list of endpoints
fetched (empty ⟺ no HTTP request was issued). -/
def handleToolCall (apiKey : Option String) (name : String) (args : Option JsValue)
    (upstream : Upstream) : Except (ErrCode × String) String × List String :=
  match apiKey with
  | none =>
    (.error (.InvalidRequest,
      "API_KEY environment variable is required. Set it with your DeAI API key."), [])
  | some _ =>
    let r := dispatchCall name args upstream
    (catchToMcp r.1, r.2)

/-- The six tool names registered in `TOOLS` (server.js lines 103–199). -/
def registeredTools : List String :=
  ["get_token_info", "get_top_holders", "get_token_holder_balance_changes",
   "get_portfolio", "get_average_entry_analysis", "get_two_token_overlap"]

/-- Projection of a client result onto its error, if any (the claims only
compare error codes and messages). -/
def clientErr : Except (ErrCode × String) JsValue → Option (ErrCode × String)
  | .error e => some e
  | .ok _ => none

/-- The rejection `fetch` produces when `AbortSignal.timeout(30000)` fires,
per the WHATWG DOM and fetch standards (implemented by the Node 18.17+ /
20+ runtimes matching the README requirement of Node 18+): the promise
rejects with the abort reason of the timed-out signal, which is a
DOMException named "TimeoutError" — not "AbortError". -/
def timeoutRejection : FetchOutcome :=
  .netErr "TimeoutError" "The operation was aborted due to timeout"

/-- A well-formed Ethereum address (an example token address from the
repository README). -/
def exAddr : String := "0x5FC111f3Fa4C6b32eAf65659CFEbdeed57234069"

/-- A second well-formed Ethereum address (the README's example wallet). -/
def exAddr2 : String := "0xd8dA6BF26964aF9D7eEd9e03E53415D37aA96045"

/-- Eleven token balances with USD values 1..11 in input order: entry 11,
the most valuable, falls outside `slice(0, 10)`. -/
def elevenTokens : List JsValue :=
  [.obj [("valueUSD", .num 1)], .obj [("valueUSD", .num 2)], .obj [("valueUSD", .num 3)],
   .obj [("valueUSD", .num 4)], .obj [("valueUSD", .num 5)], .obj [("valueUSD", .num 6)],
   .obj [("valueUSD", .num 7)], .obj [("valueUSD", .num 8)], .obj [("valueUSD", .num 9)],
   .obj [("valueUSD", .num 10)], .obj [("valueUSD", .num 11)]]

/-- Three token balances with USD values [5, 50, 1] (the example of spec
§8). -/
def threeTokens : List JsValue :=
  [.obj [("valueUSD", .num 5)], .obj [("valueUSD", .num 50)], .obj [("valueUSD", .num 1)]]

end DeAIServer

deriving instance DecidableEq for Except

namespace DeAIServer

section ClaimTheorems

attribute [local semireducible] Rat.mul Rat.add Rat.sub Rat.inv Rat.ofScientific

/-- C5: a tool call made with the API_KEY credential absent fails with
InvalidRequest, and the check precedes argument validation and all tool
logic: the outcome is one fixed failure, the same for every tool name,
every argument object and every upstream, and no HTTP request is issued. -/
theorem missing_credential_invalid_request (name : String) (args : Option JsValue)
    (upstream : Upstream) :
    handleToolCall none name args upstream
      = (.error (.InvalidRequest,
          "API_KEY environment variable is required. Set it with your DeAI API key."), []) := rfl

/-- C6: a call whose tool name is not one of the six registered names never
issues an HTTP request, and (when the credential is present, so the call
reaches the switch) fails with MethodNotFound. -/
theorem unknown_tool_method_not_found (key : Option String) (k name : String)
    (args : Option JsValue) (upstream : Upstream) (h : name ∉ registeredTools) :
    (handleToolCall key name args upstream).2 = []
    ∧ (handleToolCall (some k) name args upstream).1
        = .error (.MethodNotFound, "Tool \"" ++ name ++ "\" not found") := by
  have h1 : name ≠ "get_token_info" := fun e => h (by simp [registeredTools, e])
  have h2 : name ≠ "get_top_holders" := fun e => h (by simp [registeredTools, e])
  have h3 : name ≠ "get_token_holder_balance_changes" := fun e => h (by simp [registeredTools, e])
  have h4 : name ≠ "get_portfolio" := fun e => h (by simp [registeredTools, e])
  have h5 : name ≠ "get_average_entry_analysis" := fun e => h (by simp [registeredTools, e])
  have h6 : name ≠ "get_two_token_overlap" := fun e => h (by simp [registeredTools, e])
  constructor
  · cases key with
    | none => rfl
    | some _ =>
      show (dispatchCall name args upstream).2 = []
      simp [dispatchCall, h1, h2, h3, h4, h5, h6]
  · show catchToMcp (dispatchCall name args upstream).1 = _
    simp [dispatchCall, h1, h2, h3, h4, h5, h6, catchToMcp]

/-- C6 witness: the unregistered name "frobnicate" with the credential
present: MethodNotFound and an empty request log. -/
theorem unknown_tool_method_not_found_witness :
    ("frobnicate" ∉ registeredTools)
    ∧ (handleToolCall (some "k") "frobnicate" none (fun _ => .ok .null)).2 = []
    ∧ (handleToolCall (some "k") "frobnicate" none (fun _ => .ok .null)).1
        = .error (.MethodNotFound, "Tool \"frobnicate\" not found") := by
  refine ⟨by decide, ?_, ?_⟩
  · exact (unknown_tool_method_not_found (some "k") "k" "frobnicate" none
      (fun _ => .ok .null) (by decide)).1
  · exact (unknown_tool_method_not_found (some "k") "k" "frobnicate" none
      (fun _ => .ok .null) (by decide)).2

/-- C9: for each of the six registered tools, a call whose argument object
is absent (`args` undefined) fails with InternalError, the message opening
"Unexpected error:" and naming the property read that threw — not with
InvalidParams — because `args.<field>` throws before the address schema is
consulted. -/
theorem missing_args_unexpected_error (k : String) (u : Upstream) :
    (handleToolCall (some k) "get_token_info" none u).1
      = .error (.InternalError, "Unexpected error: Cannot read properties of undefined (reading "
          ++ quoteS "contractAddress" ++ ")")
    ∧ (handleToolCall (some k) "get_top_holders" none u).1
      = .error (.InternalError, "Unexpected error: Cannot read properties of undefined (reading "
          ++ quoteS "contractAddress" ++ ")")
    ∧ (handleToolCall (some k) "get_token_holder_balance_changes" none u).1
      = .error (.InternalError, "Unexpected error: Cannot read properties of undefined (reading "
          ++ quoteS "contractAddress" ++ ")")
    ∧ (handleToolCall (some k) "get_portfolio" none u).1
      = .error (.InternalError, "Unexpected error: Cannot read properties of undefined (reading "
          ++ quoteS "walletAddress" ++ ")")
    ∧ (handleToolCall (some k) "get_average_entry_analysis" none u).1
      = .error (.InternalError, "Unexpected error: Cannot read properties of undefined (reading "
          ++ quoteS "contractAddress" ++ ")")
    ∧ (handleToolCall (some k) "get_two_token_overlap" none u).1
      = .error (.InternalError, "Unexpected error: Cannot read properties of undefined (reading "
          ++ quoteS "token1" ++ ")")
    ∧ ∀ nm ∈ registeredTools, ∀ e : List String,
        (handleToolCall (some k) nm none u).1 ≠ .error (.InvalidParams,
          "Invalid parameters: " ++ String.intercalate ", " e) := by
  refine ⟨rfl, rfl, rfl, rfl, rfl, rfl, ?_⟩
  intro nm hnm e
  fin_cases hnm <;> simp [handleToolCall, dispatchCall, singleAddressCase,
    twoTokenOverlapCase, readArg, catchToMcp]

/-- C3: with the credential present (the check preceding validation), a
call to any of the six tools whose address-typed argument is a string not
matching the address regex fails with InvalidParams — carrying the Zod
message of the address schema — and the request log stays empty: no HTTP
request is made.  Both overlap arguments are covered, each with the other
valid or invalid. -/
theorem invalid_address_rejected_before_request (k s t : String) (u : Upstream)
    (hs : isEthAddressString s = false) (ht : isEthAddressString t = true) :
    handleToolCall (some k) "get_token_info" (some (.obj [("contractAddress", .str s)])) u
      = (.error (.InvalidParams, "Invalid parameters: Invalid Ethereum address format"), [])
    ∧ handleToolCall (some k) "get_top_holders" (some (.obj [("contractAddress", .str s)])) u
      = (.error (.InvalidParams, "Invalid parameters: Invalid Ethereum address format"), [])
    ∧ handleToolCall (some k) "get_token_holder_balance_changes"
        (some (.obj [("contractAddress", .str s)])) u
      = (.error (.InvalidParams, "Invalid parameters: Invalid Ethereum address format"), [])
    ∧ handleToolCall (some k) "get_portfolio" (some (.obj [("walletAddress", .str s)])) u
      = (.error (.InvalidParams, "Invalid parameters: Invalid Ethereum address format"), [])
    ∧ handleToolCall (some k) "get_average_entry_analysis"
        (some (.obj [("contractAddress", .str s)])) u
      = (.error (.InvalidParams, "Invalid parameters: Invalid Ethereum address format"), [])
    ∧ handleToolCall (some k) "get_two_token_overlap"
        (some (.obj [("token1", .str s), ("token2", .str t)])) u
      = (.error (.InvalidParams, "Invalid parameters: Invalid Ethereum address format"), [])
    ∧ handleToolCall (some k) "get_two_token_overlap"
        (some (.obj [("token1", .str t), ("token2", .str s)])) u
      = (.error (.InvalidParams, "Invalid parameters: Invalid Ethereum address format"), [])
    ∧ handleToolCall (some k) "get_two_token_overlap"
        (some (.obj [("token1", .str s), ("token2", .str s)])) u
      = (.error (.InvalidParams, "Invalid parameters: Invalid Ethereum address format"), []) := by
  refine ⟨?_, ?_, ?_, ?_, ?_, ?_, ?_, ?_⟩ <;>
    simp [handleToolCall, dispatchCall, singleAddressCase, twoTokenOverlapCase,
      readArg, jsAccess, JsValue.lookup, lookupField, zodParseAddress, hs, ht,
      catchToMcp, String.intercalate] <;> decide

/-- C3 witness: the malformed address "0x123" on get_token_info, and as
token2 of get_two_token_overlap beside a valid token1. -/
theorem invalid_address_rejected_before_request_witness :
    isEthAddressString "0x123" = false
    ∧ isEthAddressString exAddr = true
    ∧ handleToolCall (some "k") "get_token_info"
        (some (.obj [("contractAddress", .str "0x123")])) (fun _ => .ok .null)
      = (.error (.InvalidParams, "Invalid parameters: Invalid Ethereum address format"), [])
    ∧ handleToolCall (some "k") "get_two_token_overlap"
        (some (.obj [("token1", .str exAddr), ("token2", .str "0x123")])) (fun _ => .ok .null)
      = (.error (.InvalidParams, "Invalid parameters: Invalid Ethereum address format"), []) := by
  refine ⟨by decide, by decide, ?_, ?_⟩
  · exact (invalid_address_rejected_before_request "k" "0x123" exAddr
      (fun _ => .ok .null) (by decide) (by decide)).1
  · exact (invalid_address_rejected_before_request "k" "0x123" exAddr
      (fun _ => .ok .null) (by decide) (by decide)).2.2.2.2.2.2.1

/-- C7: the percent-change string of a balance-change entry is
`change / balanceStart * 100` rendered by `toFixed(2)` when both fields are
present numbers and non-zero, and "0.00" whenever either is absent or zero
(for a number, falsy is exactly zero); in particular {change: 50,
balanceStart: 200} gives "25.00", {change: 0, balanceStart: 200} gives
"0.00" and {change: 50, balanceStart: 0} gives "0.00". -/
theorem change_percent_spec (c s : ℚ) (cv sv : JsValue) :
    (c ≠ 0 → s ≠ 0 → changePercentStr (.num c) (.num s) = toFixedQ 2 (c / s * 100))
    ∧ ((truthy cv && truthy sv) = false → changePercentStr cv sv = "0.00")
    ∧ changePercentStr (.num 50) (.num 200) = "25.00"
    ∧ changePercentStr (.num 0) (.num 200) = "0.00"
    ∧ changePercentStr (.num 50) (.num 0) = "0.00" := by
  refine ⟨?_, ?_, by decide, by decide, by decide⟩
  · intro hc hs
    simp [changePercentStr, truthy, hc, hs]
  · intro h
    simp [changePercentStr, h]

/-- C7 witness: the spec's three examples, the first discharged through the
general formula. -/
theorem change_percent_spec_witness :
    changePercentStr (.num 50) (.num 200) = toFixedQ 2 (50 / 200 * 100)
    ∧ changePercentStr .undefined (.num 200) = "0.00"
    ∧ toFixedQ 2 ((50 : ℚ) / 200 * 100) = "25.00" := by
  refine ⟨(change_percent_spec 50 200 .undefined (.num 200)).1 (by decide) (by decide),
    (change_percent_spec 50 200 .undefined (.num 200)).2.1 (by decide), by decide⟩

/-- C2 (code bug): a fetch that exceeds the 30-second deadline rejects, per
the WHATWG standards of `AbortSignal.timeout`, with a DOMException named
"TimeoutError"; the client's catch tests `error.name === 'AbortError'`, so
the call is reported through the generic transport branch ("Request error:
…"), not with the timeout-specific message — while an error actually named
"AbortError" would have received the timeout message, showing the branch's
intent. -/
theorem timeout_reported_as_generic_error :
    clientErr (makeRequest (fun _ => timeoutRejection) (tokenInfoEndpoint exAddr))
      = some (.InternalError, "Request error: The operation was aborted due to timeout")
    ∧ clientErr (makeRequest (fun _ => timeoutRejection) (tokenInfoEndpoint exAddr))
      ≠ some (.InternalError, "Request timeout: API took too long to respond")
    ∧ (handleToolCall (some "k") "get_token_info"
        (some (.obj [("contractAddress", .str exAddr)])) (fun _ => timeoutRejection)).1
      = .error (.InternalError, "Request error: The operation was aborted due to timeout")
    ∧ (∀ m : String, clientErr (makeRequest (fun _ => .netErr "AbortError" m)
        (tokenInfoEndpoint exAddr))
      = some (.InternalError, "Request timeout: API took too long to respond")) := by
  refine ⟨by decide, by decide, by decide, fun m => ?_⟩
  simp [makeRequest, clientErr, timeoutRejection]

/-- C4 counterexample: a get_two_token_overlap call with both token1 and
token2 invalid reports the single Zod message of the token1 parse — the
message neither names the fields nor contains token2's violation (it is not
the two-issue message a combined parse would have produced). -/
theorem overlap_both_invalid_single_message_cex :
    (handleToolCall (some "k") "get_two_token_overlap"
        (some (.obj [("token1", .str "0xbad"), ("token2", .str "0xworse")]))
        (fun _ => .ok .null)).1
      = .error (.InvalidParams, "Invalid parameters: Invalid Ethereum address format")
    ∧ (handleToolCall (some "k") "get_two_token_overlap"
        (some (.obj [("token1", .str "0xbad"), ("token2", .str "0xworse")]))
        (fun _ => .ok .null)).1
      ≠ .error (.InvalidParams,
          "Invalid parameters: Invalid Ethereum address format, Invalid Ethereum address format") := by
  constructor
  · decide
  · decide

/-- C4 (amended): validation failures surface only the issues of the first
schema parse that fails: get_two_token_overlap parses token1 first, so an
invalid token1 yields InvalidParams with that single message whatever
token2 holds (and no request), and token2's violation is reported — alone —
only when token1 parses. -/
theorem validation_reports_first_failing_parse (k s1 s2 : String) (u : Upstream) :
    (isEthAddressString s1 = false →
      handleToolCall (some k) "get_two_token_overlap"
          (some (.obj [("token1", .str s1), ("token2", .str s2)])) u
        = (.error (.InvalidParams, "Invalid parameters: Invalid Ethereum address format"), []))
    ∧ (isEthAddressString s1 = true → isEthAddressString s2 = false →
      handleToolCall (some k) "get_two_token_overlap"
          (some (.obj [("token1", .str s1), ("token2", .str s2)])) u
        = (.error (.InvalidParams, "Invalid parameters: Invalid Ethereum address format"), [])) := by
  constructor
  · intro h1
    simp [handleToolCall, dispatchCall, twoTokenOverlapCase, readArg, jsAccess,
      JsValue.lookup, lookupField, zodParseAddress, h1, catchToMcp, String.intercalate]
    decide
  · intro h1 h2
    simp [handleToolCall, dispatchCall, twoTokenOverlapCase, readArg, jsAccess,
      JsValue.lookup, lookupField, zodParseAddress, h1, h2, catchToMcp, String.intercalate]
    decide

/-- C4 witness: token1 invalid beside an invalid and a valid partner. -/
theorem validation_reports_first_failing_parse_witness :
    handleToolCall (some "k") "get_two_token_overlap"
        (some (.obj [("token1", .str "0xbad"), ("token2", .str "0xworse")]))
        (fun _ => .ok .null)
      = (.error (.InvalidParams, "Invalid parameters: Invalid Ethereum address format"), [])
    ∧ handleToolCall (some "k") "get_two_token_overlap"
        (some (.obj [("token1", .str exAddr), ("token2", .str "0xbad")]))
        (fun _ => .ok .null)
      = (.error (.InvalidParams, "Invalid parameters: Invalid Ethereum address format"), []) := by
  refine ⟨(validation_reports_first_failing_parse "k" "0xbad" "0xworse"
      (fun _ => .ok .null)).1 (by decide),
    (validation_reports_first_failing_parse "k" exAddr "0xbad"
      (fun _ => .ok .null)).2 (by decide) (by decide)⟩

/-- C10: get_token_info performs no response-shape validation: whenever the
upstream 2xx body parses to a JSON object (any fields whatsoever), the call
succeeds with a text payload — absent fields fall back to
"Unknown"/"Not available" inside `formatTokenInfo` — and in particular it
never fails with the "Invalid response format from API" error. -/
theorem token_info_no_shape_validation (k addr : String) (fs : List (String × JsValue))
    (u : Upstream) (ha : isEthAddressString addr = true)
    (hu : u (tokenInfoEndpoint addr) = .ok (.obj fs)) :
    (handleToolCall (some k) "get_token_info"
        (some (.obj [("contractAddress", .str addr)])) u).1.isOk = true
    ∧ (handleToolCall (some k) "get_token_info"
        (some (.obj [("contractAddress", .str addr)])) u).1
      ≠ .error (.InternalError, "Invalid response format from API") := by
  have hmain : (handleToolCall (some k) "get_token_info"
      (some (.obj [("contractAddress", .str addr)])) u).1
      = catchToMcp (formatTokenInfo addr (.obj fs)) := by
    simp [handleToolCall, dispatchCall, singleAddressCase, readArg, jsAccess,
      JsValue.lookup, lookupField, zodParseAddress, ha, makeRequest, hu]
  obtain ⟨s, hsx⟩ : ∃ s, formatTokenInfo addr (.obj fs) = .ok s := ⟨_, rfl⟩
  rw [hmain, hsx]
  exact ⟨rfl, fun h => by simp [catchToMcp] at h⟩

/-- C10 witness: an object body carrying only a name; the call succeeds and
does not carry the invalid-format error. -/
theorem token_info_no_shape_validation_witness :
    (handleToolCall (some "k") "get_token_info"
        (some (.obj [("contractAddress", .str exAddr)]))
        (fun _ => .ok (.obj [("name", .str "T")]))).1.isOk = true
    ∧ (handleToolCall (some "k") "get_token_info"
        (some (.obj [("contractAddress", .str exAddr)]))
        (fun _ => .ok (.obj [("name", .str "T")]))).1
      ≠ .error (.InternalError, "Invalid response format from API") := by
  exact ⟨(token_info_no_shape_validation "k" exAddr [("name", .str "T")]
      (fun _ => .ok (.obj [("name", .str "T")])) (by decide) rfl).1,
    (token_info_no_shape_validation "k" exAddr [("name", .str "T")]
      (fun _ => .ok (.obj [("name", .str "T")])) (by decide) rfl).2⟩

/-- C1 counterexample: with eleven token balances of USD values 1..11 (in
that input order), the displayed entries are the sorted first ten — USD
values [10, …, 1] — not the ten largest of the whole list, which sorted
descending would be [11, …, 2]: the code truncates with `slice(0, 10)`
before it sorts. -/
theorem portfolio_sort_after_truncate_cex :
    (portfolioDisplayed elevenTokens).map valueUSDKey = [10, 9, 8, 7, 6, 5, 4, 3, 2, 1]
    ∧ ((sortedDescByValue elevenTokens).take 10).map valueUSDKey
      = [11, 10, 9, 8, 7, 6, 5, 4, 3, 2]
    ∧ (portfolioDisplayed elevenTokens).map valueUSDKey
      ≠ ((sortedDescByValue elevenTokens).take 10).map valueUSDKey := by
  refine ⟨by decide, by decide, by decide⟩

/-- C1 (amended): the portfolio formatter truncates the token balances to
the first 10 entries and then sorts those 10 (stably) by descending USD
value: the displayed entries are a permutation of the first ten, sorted
descending; whenever the payload holds at most 10 balances — as in the
spec's [5, 50, 1] example — they are exactly the whole list in descending
USD order. -/
theorem portfolio_truncate_then_sort (tb : List JsValue) :
    portfolioDisplayed tb = sortedDescByValue (tb.take 10)
    ∧ List.Perm (portfolioDisplayed tb) (tb.take 10)
    ∧ List.Sorted (fun a b => valueUSDKey b ≤ valueUSDKey a) (portfolioDisplayed tb)
    ∧ (tb.length ≤ 10 → List.Perm (portfolioDisplayed tb) tb) := by
  haveI ht : IsTotal JsValue (fun a b => valueUSDKey b ≤ valueUSDKey a) :=
    ⟨fun a b => le_total (valueUSDKey b) (valueUSDKey a)⟩
  haveI htr : IsTrans JsValue (fun a b => valueUSDKey b ≤ valueUSDKey a) :=
    ⟨fun a b c h1 h2 => le_trans h2 h1⟩
  refine ⟨rfl, List.perm_insertionSort _ _, List.sorted_insertionSort _ _, fun h => ?_⟩
  have he : portfolioDisplayed tb
      = List.insertionSort (fun a b => valueUSDKey b ≤ valueUSDKey a) tb := by
    simp [portfolioDisplayed, sortedDescByValue, List.take_of_length_le h]
  rw [he]
  exact List.perm_insertionSort _ _

/-- C1 witness: the spec's example — USD values [5, 50, 1] are displayed as
[50, 5, 1]. -/
theorem portfolio_truncate_then_sort_witness :
    threeTokens.length ≤ 10
    ∧ List.Perm (portfolioDisplayed threeTokens) threeTokens
    ∧ (portfolioDisplayed threeTokens).map valueUSDKey = [50, 5, 1] := by
  exact ⟨by decide, (portfolio_truncate_then_sort threeTokens).2.2.2 (by decide), by decide⟩

theorem exceptBind_no_mcp {α β : Type} {x : Except JsErr α} {f : α → Except JsErr β}
    {c : ErrCode} {m : String} (hx : x ≠ .error (.mcp c m))
    (hf : ∀ a, f a ≠ .error (.mcp c m)) : x >>= f ≠ .error (.mcp c m) := by
  cases x with
  | error e =>
    have he : e ≠ JsErr.mcp c m := fun hh => hx (by rw [hh])
    simp only [show (Except.error e >>= f : Except JsErr β) = Except.error e from rfl]
    intro hc
    injection hc with h2
    exact he h2
  | ok a =>
    simp only [show ((Except.ok a : Except JsErr α) >>= f) = f a from rfl]
    exact hf a

theorem jsAccess_no_mcp (v : JsValue) (f : String) (c : ErrCode) (m : String) :
    jsAccess v f ≠ .error (.mcp c m) := by
  cases v <;> simp [jsAccess]

theorem optToFixedOr_no_mcp (d : Nat) (v : JsValue) (fb : String) (c : ErrCode) (m : String) :
    optToFixedOr d v fb ≠ .error (.mcp c m) := by
  cases v <;> simp [optToFixedOr]

theorem pure_no_mcp {α : Type} (a : α) (c : ErrCode) (m : String) :
    (pure a : Except JsErr α) ≠ .error (.mcp c m) := by
  simp [pure, Except.pure]

theorem topHolderLine_no_mcp (i : Nat) (h : JsValue) (c : ErrCode) (m : String) :
    topHolderLine i h ≠ .error (.mcp c m) :=
  exceptBind_no_mcp (jsAccess_no_mcp _ _ _ _) (fun _ => pure_no_mcp _ _ _)

theorem balanceChangeLine_no_mcp (i : Nat) (h : JsValue) (c : ErrCode) (m : String) :
    balanceChangeLine i h ≠ .error (.mcp c m) :=
  exceptBind_no_mcp (jsAccess_no_mcp _ _ _ _) (fun _ => pure_no_mcp _ _ _)

theorem portfolioTokenLine_no_mcp (i : Nat) (h : JsValue) (c : ErrCode) (m : String) :
    portfolioTokenLine i h ≠ .error (.mcp c m) :=
  exceptBind_no_mcp (jsAccess_no_mcp _ _ _ _) (fun _ => pure_no_mcp _ _ _)

theorem avgEntryHolderLine_no_mcp (r : JsValue) (i : Nat) (h : JsValue) (c : ErrCode)
    (m : String) : avgEntryHolderLine r i h ≠ .error (.mcp c m) := by
  refine exceptBind_no_mcp (jsAccess_no_mcp _ _ _ _) (fun a => ?_)
  refine exceptBind_no_mcp ?_ (fun _ => pure_no_mcp _ _ _)
  by_cases hta : truthy a = true
  · simp only [hta, if_true]
    cases a <;> simp [throw, throwThe, MonadExceptOf.throw, pure, Except.pure]
  · simp [hta, pure, Except.pure]

theorem overlapHolderLine_no_mcp (r : JsValue) (i : Nat) (h : JsValue) (c : ErrCode)
    (m : String) : overlapHolderLine r i h ≠ .error (.mcp c m) := by
  refine exceptBind_no_mcp (jsAccess_no_mcp _ _ _ _) (fun _ => ?_)
  refine exceptBind_no_mcp (optToFixedOr_no_mcp _ _ _ _ _) (fun _ => ?_)
  exact exceptBind_no_mcp (optToFixedOr_no_mcp _ _ _ _ _) (fun _ => pure_no_mcp _ _ _)

theorem mapIdxExcept_no_mcp {f : Nat → JsValue → Except JsErr String}
    (hf : ∀ i x c m, f i x ≠ .error (.mcp c m)) (i : Nat) (l : List JsValue)
    (c : ErrCode) (m : String) : mapIdxExcept f i l ≠ .error (.mcp c m) := by
  induction l generalizing i with
  | nil => simp [mapIdxExcept]
  | cons x xs ih =>
    exact exceptBind_no_mcp (hf i x c m)
      (fun _ => exceptBind_no_mcp (ih (i + 1)) (fun _ => pure_no_mcp _ _ _))

theorem avgEntryHoldersList_no_mcp (r : JsValue) (c : ErrCode) (m : String) :
    avgEntryHoldersList r ≠ .error (.mcp c m) := by
  unfold avgEntryHoldersList
  cases r.lookup "holders" with
  | null => exact pure_no_mcp _ _ _
  | undefined => exact pure_no_mcp _ _ _
  | arr xs =>
    exact exceptBind_no_mcp (mapIdxExcept_no_mcp (avgEntryHolderLine_no_mcp r) 0 _ c m)
      (fun _ => pure_no_mcp _ _ _)
  | str s => simp [throw, throwThe, MonadExceptOf.throw]
  | bool b => simp [throw, throwThe, MonadExceptOf.throw]
  | num q => simp [throw, throwThe, MonadExceptOf.throw]
  | obj fs => simp [throw, throwThe, MonadExceptOf.throw]

theorem formatTopHoldersBody_no_mcp (r : JsValue) (c : ErrCode) (m : String) :
    formatTopHoldersBody r ≠ .error (.mcp c m) :=
  exceptBind_no_mcp (mapIdxExcept_no_mcp topHolderLine_no_mcp 0 _ c m)
    (fun _ => pure_no_mcp _ _ _)

theorem formatBalanceChangesBody_no_mcp (r : JsValue) (c : ErrCode) (m : String) :
    formatBalanceChangesBody r ≠ .error (.mcp c m) :=
  exceptBind_no_mcp (mapIdxExcept_no_mcp balanceChangeLine_no_mcp 0 _ c m)
    (fun _ => pure_no_mcp _ _ _)

theorem formatPortfolioBody_no_mcp (w : String) (r : JsValue) (c : ErrCode) (m : String) :
    formatPortfolioBody w r ≠ .error (.mcp c m) :=
  exceptBind_no_mcp (optToFixedOr_no_mcp _ _ _ _ _) (fun _ =>
    exceptBind_no_mcp (mapIdxExcept_no_mcp portfolioTokenLine_no_mcp 0 _ c m)
      (fun _ => pure_no_mcp _ _ _))

theorem formatAvgEntryBody_no_mcp (r : JsValue) (c : ErrCode) (m : String) :
    formatAvgEntryBody r ≠ .error (.mcp c m) := by
  refine exceptBind_no_mcp (avgEntryHoldersList_no_mcp r c m) (fun _ => ?_)
  refine exceptBind_no_mcp (optToFixedOr_no_mcp _ _ _ _ _) (fun _ => ?_)
  refine exceptBind_no_mcp (optToFixedOr_no_mcp _ _ _ _ _) (fun _ => ?_)
  refine exceptBind_no_mcp (optToFixedOr_no_mcp _ _ _ _ _) (fun _ => ?_)
  refine exceptBind_no_mcp (optToFixedOr_no_mcp _ _ _ _ _) (fun _ => ?_)
  refine exceptBind_no_mcp (optToFixedOr_no_mcp _ _ _ _ _) (fun _ => ?_)
  refine exceptBind_no_mcp (optToFixedOr_no_mcp _ _ _ _ _) (fun _ => ?_)
  refine exceptBind_no_mcp (optToFixedOr_no_mcp _ _ _ _ _) (fun _ => ?_)
  refine exceptBind_no_mcp (optToFixedOr_no_mcp _ _ _ _ _) (fun _ => ?_)
  refine exceptBind_no_mcp (optToFixedOr_no_mcp _ _ _ _ _) (fun _ => ?_)
  exact exceptBind_no_mcp (optToFixedOr_no_mcp _ _ _ _ _) (fun _ => pure_no_mcp _ _ _)

theorem formatTwoTokenOverlapBody_no_mcp (r : JsValue) (c : ErrCode) (m : String) :
    formatTwoTokenOverlapBody r ≠ .error (.mcp c m) := by
  unfold formatTwoTokenOverlapBody
  refine exceptBind_no_mcp ?_ (fun _ =>
    exceptBind_no_mcp (optToFixedOr_no_mcp _ _ _ _ _) (fun _ => pure_no_mcp _ _ _))
  cases r.lookup "overlappingHolders" with
  | null => exact pure_no_mcp _ _ _
  | undefined => exact pure_no_mcp _ _ _
  | arr xs =>
    exact exceptBind_no_mcp (mapIdxExcept_no_mcp (overlapHolderLine_no_mcp r) 0 _ c m)
      (fun _ => pure_no_mcp _ _ _)
  | str s => simp [throw, throwThe, MonadExceptOf.throw]
  | bool b => simp [throw, throwThe, MonadExceptOf.throw]
  | num q => simp [throw, throwThe, MonadExceptOf.throw]
  | obj fs => simp [throw, throwThe, MonadExceptOf.throw]

theorem isArray_lookup_truthy (r : JsValue) (f : String)
    (h : isArrayJs (r.lookup f) = true) : truthy r = true := by
  cases r <;> simp_all [JsValue.lookup, isArrayJs, truthy]

/-- C8 (amended): the 2xx-response shape validation, performed before any
string construction, is exactly this per-tool guard, and the invalid-format
InternalError arises from it alone: for get_top_holders,
get_token_holder_balance_changes and get_portfolio the call fails with
"Invalid response format from API" precisely when the required top-level
list (holders / tokenHolderBalanceChanges / tokenBalances) is not an array;
for get_average_entry_analysis and get_two_token_overlap the guard checks
only truthiness of the summary resp. token1/token2 fields, so the error
arises precisely when one of them is falsy or absent — a truthy
non-container value (e.g. a number) passes the check and does not produce
this error. -/
theorem invalid_format_exactly_on_guard (result : JsValue) (w : String) :
    (formatTopHolders result = .error (.mcp .InternalError "Invalid response format from API")
      ↔ isArrayJs (result.lookup "holders") = false)
    ∧ (formatBalanceChanges result
        = .error (.mcp .InternalError "Invalid response format from API")
      ↔ isArrayJs (result.lookup "tokenHolderBalanceChanges") = false)
    ∧ (formatPortfolio w result = .error (.mcp .InternalError "Invalid response format from API")
      ↔ isArrayJs (result.lookup "tokenBalances") = false)
    ∧ (formatAvgEntry result = .error (.mcp .InternalError "Invalid response format from API")
      ↔ (truthy result && truthy (result.lookup "summary")) = false)
    ∧ (formatTwoTokenOverlap result
        = .error (.mcp .InternalError "Invalid response format from API")
      ↔ (truthy result && truthy (result.lookup "token1")
          && truthy (result.lookup "token2")) = false) := by
  have g1 : formatTopHolders result
      = .error (.mcp .InternalError "Invalid response format from API")
      ↔ isArrayJs (result.lookup "holders") = false := by
    constructor
    · intro h
      by_contra hn
      have ha : isArrayJs (result.lookup "holders") = true := by
        cases hb : isArrayJs (result.lookup "holders") <;> simp_all
      have ht := isArray_lookup_truthy result "holders" ha
      rw [formatTopHolders, ht, ha] at h
      simp at h
      exact formatTopHoldersBody_no_mcp result _ _ h
    · intro h
      rw [formatTopHolders, h]
      simp
  have g2 : formatBalanceChanges result
      = .error (.mcp .InternalError "Invalid response format from API")
      ↔ isArrayJs (result.lookup "tokenHolderBalanceChanges") = false := by
    constructor
    · intro h
      by_contra hn
      have ha : isArrayJs (result.lookup "tokenHolderBalanceChanges") = true := by
        cases hb : isArrayJs (result.lookup "tokenHolderBalanceChanges") <;> simp_all
      have ht := isArray_lookup_truthy result "tokenHolderBalanceChanges" ha
      rw [formatBalanceChanges, ht, ha] at h
      simp at h
      exact formatBalanceChangesBody_no_mcp result _ _ h
    · intro h
      rw [formatBalanceChanges, h]
      simp
  have g3 : formatPortfolio w result
      = .error (.mcp .InternalError "Invalid response format from API")
      ↔ isArrayJs (result.lookup "tokenBalances") = false := by
    constructor
    · intro h
      by_contra hn
      have ha : isArrayJs (result.lookup "tokenBalances") = true := by
        cases hb : isArrayJs (result.lookup "tokenBalances") <;> simp_all
      have ht := isArray_lookup_truthy result "tokenBalances" ha
      rw [formatPortfolio, ht, ha] at h
      simp at h
      exact formatPortfolioBody_no_mcp w result _ _ h
    · intro h
      rw [formatPortfolio, h]
      simp
  have g4 : formatAvgEntry result
      = .error (.mcp .InternalError "Invalid response format from API")
      ↔ (truthy result && truthy (result.lookup "summary")) = false := by
    constructor
    · intro h
      by_contra hn
      have hg : (truthy result && truthy (result.lookup "summary")) = true := by
        cases hb : (truthy result && truthy (result.lookup "summary")) <;> simp_all
      rw [Bool.and_eq_true] at hg
      rw [formatAvgEntry, hg.1, hg.2] at h
      simp at h
      exact formatAvgEntryBody_no_mcp result _ _ h
    · intro h
      cases ha : truthy result <;> cases hb : truthy (result.lookup "summary") <;>
        simp_all [formatAvgEntry]
  have g5 : formatTwoTokenOverlap result
      = .error (.mcp .InternalError "Invalid response format from API")
      ↔ (truthy result && truthy (result.lookup "token1")
          && truthy (result.lookup "token2")) = false := by
    constructor
    · intro h
      by_contra hn
      have hg : (truthy result && truthy (result.lookup "token1")
          && truthy (result.lookup "token2")) = true := by
        cases hb : (truthy result && truthy (result.lookup "token1")
          && truthy (result.lookup "token2")) <;> simp_all
      rw [Bool.and_eq_true, Bool.and_eq_true] at hg
      rw [formatTwoTokenOverlap, hg.1.1, hg.1.2, hg.2] at h
      simp at h
      exact formatTwoTokenOverlapBody_no_mcp result _ _ h
    · intro h
      cases ha : truthy result <;> cases hb : truthy (result.lookup "token1") <;>
        cases hc : truthy (result.lookup "token2") <;> simp_all [formatTwoTokenOverlap]
  exact ⟨g1, g2, g3, g4, g5⟩

/-- C8 counterexample: a 2xx avg-entry response `{"summary": 1}` — summary
present but a number, not the expected container shape — passes the
truthiness check, and the call succeeds instead of failing with the
invalid-format InternalError. -/
theorem truthy_noncontainer_summary_accepted_cex :
    (handleToolCall (some "k") "get_average_entry_analysis"
        (some (.obj [("contractAddress", .str exAddr)]))
        (fun _ => .ok (.obj [("summary", .num 1)]))).1.isOk = true
    ∧ (handleToolCall (some "k") "get_average_entry_analysis"
        (some (.obj [("contractAddress", .str exAddr)]))
        (fun _ => .ok (.obj [("summary", .num 1)]))).1
      ≠ .error (.InternalError, "Invalid response format from API") := by
  constructor
  · decide
  · decide

end ClaimTheorems

end DeAIServer
